import Mathlib

/-
Verification development for the sticker-sheet placement engine of the
stickerizz frontend (PrintPage).  The definitions below are a shallow
embedding of the geometry kernel, the placement validators, the staged
placement search, and the PrintPage state handlers, translated directly
from the TypeScript source.  Coordinates are modelled as real numbers;
JavaScript truthiness on optional numeric fields is modelled by
`truthyDim`; the Konva stage reference and the per-placement node registry
(`nodeRefs.current`) are modelled as explicit fields of `PageCtx`.
-/

set_option maxHeartbeats 1000000

namespace Stickerizz

noncomputable section

open Classical

/-- Axis-aligned rectangle `{ x, y, width, height }` as used throughout
the PrintPage geometry code. -/
structure Rect where
  x : ℝ
  y : ℝ
  width : ℝ
  height : ℝ

/-- Geometry kernel `rectsIntersect`: true unless one rectangle is strictly
to the left/right/above/below the other (strict `<`/`>` comparisons, so
exact edge contact counts as intersecting). -/
def rectsIntersect (a b : Rect) : Prop :=
  ¬ (a.x + a.width < b.x ∨ a.x > b.x + b.width ∨
     a.y + a.height < b.y ∨ a.y > b.y + b.height)

/-- Geometry kernel `getExpandedRect`: grow all four sides by `pad`. -/
def getExpandedRect (rect : Rect) (pad : ℝ) : Rect :=
  { x := rect.x - pad
    y := rect.y - pad
    width := rect.width + pad * 2
    height := rect.height + pad * 2 }

/-- Geometry kernel `getRotatedBounds`: axis-aligned bounding-box size of a
`width × height` rectangle rotated by `rotationDeg` about its center. -/
def getRotatedBounds (width height rotationDeg : ℝ) : ℝ × ℝ :=
  let theta := rotationDeg * Real.pi / 180
  (|width * Real.cos theta| + |height * Real.sin theta|,
   |width * Real.sin theta| + |height * Real.cos theta|)

/-- Paper sizes offered by the PrintPage paper selector. -/
inductive PaperSize where
  | A4
  | LETTER

/-- Physical dimensions of a paper size in millimeters. -/
structure PaperDims where
  widthMm : ℝ
  heightMm : ℝ

/-- The `PAPER_SIZES` table: A4 = 210×297, LETTER = 215.9×279.4. -/
def PAPER_SIZES : PaperSize → PaperDims
  | .A4 => ⟨210, 297⟩
  | .LETTER => ⟨215.9, 279.4⟩

/-- A saved sticker record; `widthMm`/`heightMm` are optional because the
catalog can contain stickers without print-size metadata. -/
structure SavedSticker where
  id : String
  widthMm : Option ℝ
  heightMm : Option ℝ

/-- A committed placement (`PlacedSticker` in the source): top-left
un-rotated position in sheet millimeters plus a rotation. -/
structure PlacedSticker where
  id : String
  stickerId : String
  xMm : ℝ
  yMm : ℝ
  rotationDeg : ℝ

/-- JavaScript truthiness filter for optional numeric dimensions: the
source guards `!sticker.widthMm`, which rejects a missing value and the
value `0` but lets any other number (negative ones included) through. -/
def truthyDim : Option ℝ → Option ℝ
  | none => none
  | some v => if v = 0 then none else some v

/-- Snapshot of the PrintPage component context that the placement code
reads: sheet configuration, sticker catalog, stage transform, and the
rendering-layer state (`stageRef` presence and the client rects of the
Konva nodes registered in `nodeRefs.current`). -/
structure PageCtx where
  paperSize : PaperSize
  marginMm : ℝ
  gapMm : ℝ
  stickers : List SavedSticker
  sheetOriginPx : ℝ × ℝ
  scalePxPerMm : ℝ
  stagePresent : Bool
  nodeRects : String → Option Rect

/-- Printable rectangle in millimeters: the paper minus the (clamped)
margin on all sides. -/
def printableRect (ctx : PageCtx) : Rect :=
  { x := max 0 ctx.marginMm
    y := max 0 ctx.marginMm
    width := (PAPER_SIZES ctx.paperSize).widthMm - (max 0 ctx.marginMm) * 2
    height := (PAPER_SIZES ctx.paperSize).heightMm - (max 0 ctx.marginMm) * 2 }

/-- Millimeter-to-pixel conversion `mmToPx`. -/
def mmToPx (ctx : PageCtx) (mm : ℝ) : ℝ := mm * ctx.scalePxPerMm

/-- Printable rectangle in stage pixels (`printableRectPx`). -/
def printableRectPx (ctx : PageCtx) : Rect :=
  { x := ctx.sheetOriginPx.1 + mmToPx ctx (printableRect ctx).x
    y := ctx.sheetOriginPx.2 + mmToPx ctx (printableRect ctx).y
    width := mmToPx ctx (printableRect ctx).width
    height := mmToPx ctx (printableRect ctx).height }

/-- Sticker lookup by id (`stickerLookup` map / `stickers.find`). -/
def stickerLookup (ctx : PageCtx) (sid : String) : Option SavedSticker :=
  ctx.stickers.find? (fun s => s.id == sid)

/-- The `getPlacementRectPx` helper: gap-expanded axis-aligned bounding box
of the rotated sticker, in stage pixels; `none` when the sticker is
missing or has falsy dimensions. -/
def getPlacementRectPx (ctx : PageCtx) (placement : PlacedSticker) : Option Rect :=
  match stickerLookup ctx placement.stickerId with
  | none => none
  | some sticker =>
    match truthyDim sticker.widthMm, truthyDim sticker.heightMm with
    | some w, some h =>
      let gapPx := (max 0 ctx.gapMm) * ctx.scalePxPerMm
      let widthPx := mmToPx ctx w
      let heightPx := mmToPx ctx h
      let centerX := ctx.sheetOriginPx.1 + mmToPx ctx placement.xMm + widthPx / 2
      let centerY := ctx.sheetOriginPx.2 + mmToPx ctx placement.yMm + heightPx / 2
      let rotated := getRotatedBounds widthPx heightPx placement.rotationDeg
      some (getExpandedRect
        { x := centerX - rotated.1 / 2
          y := centerY - rotated.2 / 2
          width := rotated.1
          height := rotated.2 } gapPx)
    | _, _ => none

/-- Containment test used by both validators (non-strict `>=`/`<=`
comparisons, exactly as written inline in the source). -/
def insideRect (rect bounds : Rect) : Prop :=
  rect.x ≥ bounds.x ∧ rect.y ≥ bounds.y ∧
  rect.x + rect.width ≤ bounds.x + bounds.width ∧
  rect.y + rect.height ≤ bounds.y + bounds.height

/-- The data-model validator `validatePlacementRect`: the candidate's
gap-expanded rotated bbox must exist, lie inside the printable rect, and
not intersect the expanded bbox of any other placement (placements whose
rect cannot be computed are skipped, mirroring the `continue`). -/
def validatePlacementRect (ctx : PageCtx) (next : PlacedSticker)
    (placements : List PlacedSticker) : Prop :=
  match getPlacementRectPx ctx next with
  | none => False
  | some rect =>
    insideRect rect (printableRectPx ctx) ∧
    ∀ other ∈ placements, other.id ≠ next.id →
      ∀ otherRect, getPlacementRectPx ctx other = some otherRect →
        ¬ rectsIntersect rect otherRect

/-- Ring-scan sample point: ring index `ringIdx` (0-based; the source ring
counter is `ringIdx + 1`), angle index `i` of `angles` samples, radius
`(ringIdx + 1) * step`, angle `(i / angles) * π * 2`. -/
def ringPoint (start : ℝ × ℝ) (step : ℝ) (angles ringIdx i : ℕ) : ℝ × ℝ :=
  (start.1 + Real.cos (((i : ℝ) / (angles : ℝ)) * Real.pi * 2) * (((ringIdx : ℝ) + 1) * step),
   start.2 + Real.sin (((i : ℝ) / (angles : ℝ)) * Real.pi * 2) * (((ringIdx : ℝ) + 1) * step))

/-- The four axis nudges, in the source's fixed order +x, −x, +y, −y. -/
def axisPoints (start : ℝ × ℝ) (step : ℝ) : List (ℝ × ℝ) :=
  [(start.1 + step, start.2), (start.1 - step, start.2),
   (start.1, start.2 + step), (start.1, start.2 - step)]

/-- The full staged candidate sequence shared by both search loops: the
start point, then the four axis nudges, then ring points with the ring
loop outermost and the angle loop innermost. -/
def searchPoints (start : ℝ × ℝ) (step : ℝ) (rings angles : ℕ) : List (ℝ × ℝ) :=
  [start] ++ axisPoints start step ++
    (List.range rings).flatMap (fun ringIdx =>
      (List.range angles).map (ringPoint start step angles ringIdx))

/-- First candidate point satisfying `valid`, scanning in list order (the
early-`return` structure of both search loops). -/
def firstHit (valid : ℝ × ℝ → Prop) : List (ℝ × ℝ) → Option (ℝ × ℝ)
  | [] => none
  | p :: rest => if valid p then some p else firstHit valid rest

/-- Candidate built by `tryAt`: the base placement moved to point `p`. -/
def candidateAt (base : PlacedSticker) (p : ℝ × ℝ) : PlacedSticker :=
  { base with xMm := p.1, yMm := p.2 }

/-- The millimeter-path search `findFirstValidPlacement`: guard the sticker
metadata, then scan start → axis nudges → 140 rings × 24 angles with step
`max(2, gapMm)` and return the first candidate passing
`validatePlacementRect`. -/
def findFirstValidPlacement (ctx : PageCtx) (base : PlacedSticker)
    (placements : List PlacedSticker) (start : ℝ × ℝ) : Option PlacedSticker :=
  match stickerLookup ctx base.stickerId with
  | none => none
  | some sticker =>
    match truthyDim sticker.widthMm, truthyDim sticker.heightMm with
    | some _, some _ =>
      (firstHit (fun p => validatePlacementRect ctx (candidateAt base p) placements)
          (searchPoints start (max 2 ctx.gapMm) 140 24)).map (candidateAt base)
    | _, _ => none

/-- Outcome of `addStickerToSheet` / `duplicateSelected`. -/
inductive AddOutcome where
  | invalidStickerMetadata
  | noSpaceAvailable
  | added (found : PlacedSticker)

/-- The `addStickerToSheet` handler: reject falsy sticker dimensions,
otherwise search from the printable rect's top-left; on success append the
found placement, on failure leave the committed list untouched.  The
random id is passed in as `newId`. -/
def addStickerToSheet (ctx : PageCtx) (newId : String) (sticker : SavedSticker)
    (placed : List PlacedSticker) : AddOutcome × List PlacedSticker :=
  match truthyDim sticker.widthMm, truthyDim sticker.heightMm with
  | some _, some _ =>
    match findFirstValidPlacement ctx
        { id := newId, stickerId := sticker.id
          xMm := (printableRect ctx).x, yMm := (printableRect ctx).y, rotationDeg := 0 }
        placed ((printableRect ctx).x, (printableRect ctx).y) with
    | none => (.noSpaceAvailable, placed)
    | some found => (.added found, placed ++ [found])
  | _, _ => (.invalidStickerMetadata, placed)

/-- The `duplicateSelected` handler: start from the original offset by
`(widthMm ?? 10) + gapMm` in x, then the same search/append semantics. -/
def duplicateSelected (ctx : PageCtx) (newId : String)
    (selectedPlacement : PlacedSticker) (placed : List PlacedSticker) :
    AddOutcome × List PlacedSticker :=
  match findFirstValidPlacement ctx
      { selectedPlacement with
          id := newId
          xMm := selectedPlacement.xMm +
            ((stickerLookup ctx selectedPlacement.stickerId).bind SavedSticker.widthMm).getD 10 +
            ctx.gapMm }
      placed
      (selectedPlacement.xMm +
        ((stickerLookup ctx selectedPlacement.stickerId).bind SavedSticker.widthMm).getD 10 +
        ctx.gapMm,
       selectedPlacement.yMm) with
  | none => (.noSpaceAvailable, placed)
  | some found => (.added found, placed ++ [found])

/-- The rendering-coupled validator `validatePlacement` used by move and
rotate: reject falsy sticker metadata; then, if the stage reference or the
candidate's registered node is missing, return `true` with no geometric
check at all; otherwise test the node's client rect (expanded by the gap)
for containment and for intersection against the client rects of the
other registered nodes. -/
def validatePlacement (ctx : PageCtx) (next : PlacedSticker)
    (placements : List PlacedSticker) (gapPxOverride : Option ℝ) : Prop :=
  match stickerLookup ctx next.stickerId with
  | none => False
  | some sticker =>
    match truthyDim sticker.widthMm, truthyDim sticker.heightMm with
    | some _, some _ =>
      match ctx.stagePresent, ctx.nodeRects next.id with
      | false, _ => True
      | true, none => True
      | true, some rect =>
        let gapPx := gapPxOverride.getD ((max 0 ctx.gapMm) * ctx.scalePxPerMm)
        insideRect (getExpandedRect rect gapPx) (printableRectPx ctx) ∧
        ∀ other ∈ placements, other.id ≠ next.id →
          ∀ otherRect, ctx.nodeRects other.id = some otherRect →
            ¬ rectsIntersect (getExpandedRect rect gapPx) (getExpandedRect otherRect gapPx)
    | _, _ => False

/-- Client rect of a sheet sticker node as Konva reports it: the node is
positioned at `center` with its offset at the image middle, so its client
rect is the rotated axis-aligned bounds centered at the position. -/
def nodeClientRect (widthPx heightPx rotationDeg : ℝ) (center : ℝ × ℝ) : Rect :=
  { x := center.1 - (getRotatedBounds widthPx heightPx rotationDeg).1 / 2
    y := center.2 - (getRotatedBounds widthPx heightPx rotationDeg).2 / 2
    width := (getRotatedBounds widthPx heightPx rotationDeg).1
    height := (getRotatedBounds widthPx heightPx rotationDeg).2 }

/-- Registry update performed by `node.position(center)` inside
`tryCenter`: the candidate's own node now reports a client rect at the
moved position. -/
def setNodeRect (f : String → Option Rect) (id : String) (rect : Rect) :
    String → Option Rect :=
  fun i => if i = id then some rect else f i

/-- The `placementFromCenter` helper of `findNearestValidCenterPx`. -/
def placementFromCenter (ctx : PageCtx) (base : PlacedSticker) (wMm hMm : ℝ)
    (center : ℝ × ℝ) : PlacedSticker :=
  { base with
      xMm := (center.1 - ctx.sheetOriginPx.1) / ctx.scalePxPerMm - wMm / 2
      yMm := (center.2 - ctx.sheetOriginPx.2) / ctx.scalePxPerMm - hMm / 2 }

/-- The `tryCenter` check: move the candidate's node to `center` (so its
client rect is the rotated bounds at that center) and run
`validatePlacement` with the gap override. -/
def tryCenterValid (ctx : PageCtx) (base : PlacedSticker) (wMm hMm : ℝ)
    (placements : List PlacedSticker) (gapPx : ℝ) (center : ℝ × ℝ) : Prop :=
  validatePlacement
    { ctx with nodeRects := (setNodeRect ctx.nodeRects base.id
        (nodeClientRect (mmToPx ctx wMm) (mmToPx ctx hMm) base.rotationDeg center)) }
    (placementFromCenter ctx base wMm hMm center) placements (some gapPx)

/-- Number of rings the pixel loop `for (r = step; r <= max; r += step)`
executes: radii `k · step` for `1 ≤ k ≤ ⌊max / step⌋`. -/
def pxRingCount (maxRadiusPx stepPx : ℝ) : ℕ := ⌊maxRadiusPx / stepPx⌋₊

/-- Candidate centers of the pixel search: start, axis nudges, rings of 20
samples, and the final snap-back attempt at the original center. -/
def pxSearchCenters (startCenter originalCenter : ℝ × ℝ) (stepPx maxRadiusPx : ℝ) :
    List (ℝ × ℝ) :=
  searchPoints startCenter stepPx (pxRingCount maxRadiusPx stepPx) 20 ++ [originalCenter]

/-- The pixel-path search `findNearestValidCenterPx`: bail out when the
stage reference is missing, otherwise scan the staged candidate centers
(start → axis nudges → rings → original center) and return the first one
passing `tryCenter`.  The node-position restore and `batchDraw` calls are
rendering side effects with no bearing on the returned value. -/
def findNearestValidCenterPx (ctx : PageCtx) (base : PlacedSticker) (wMm hMm : ℝ)
    (placements : List PlacedSticker) (startCenter originalCenter : ℝ × ℝ)
    (maxRadiusPx stepPx gapPx : ℝ) : Option (ℝ × ℝ) :=
  match ctx.stagePresent with
  | false => none
  | true =>
    firstHit (tryCenterValid ctx base wMm hMm placements gapPx)
      (pxSearchCenters startCenter originalCenter stepPx maxRadiusPx)

/-- The `resolvePlacement` helper: compute start/original centers from the
requested and committed placements, step `max(8, gapPx)`, radius cap
`max(200, min(printable width, printable height))`, and delegate to
`findNearestValidCenterPx`. -/
def resolvePlacement (ctx : PageCtx) (next existing : PlacedSticker)
    (placements : List PlacedSticker) : Option (ℝ × ℝ) :=
  match stickerLookup ctx next.stickerId with
  | none => none
  | some sticker =>
    match truthyDim sticker.widthMm, truthyDim sticker.heightMm with
    | some w, some h =>
      findNearestValidCenterPx ctx next w h placements
        (ctx.sheetOriginPx.1 + mmToPx ctx next.xMm + mmToPx ctx w / 2,
         ctx.sheetOriginPx.2 + mmToPx ctx next.yMm + mmToPx ctx h / 2)
        (ctx.sheetOriginPx.1 + mmToPx ctx existing.xMm + mmToPx ctx w / 2,
         ctx.sheetOriginPx.2 + mmToPx ctx existing.yMm + mmToPx ctx h / 2)
        (max 200 (min (printableRectPx ctx).width (printableRectPx ctx).height))
        (max 8 ((max 0 ctx.gapMm) * ctx.scalePxPerMm))
        ((max 0 ctx.gapMm) * ctx.scalePxPerMm)
    | _, _ => none

/-- In-place update of the placement with `next.id` (the `prev.map` in
`setPlaced`). -/
def replaceById (placed : List PlacedSticker) (next : PlacedSticker) :
    List PlacedSticker :=
  placed.map (fun item => if item.id = next.id then next else item)

/-- The `updatePlacement` handler (move/rotate commit): fast-path commit
when `validatePlacement` accepts; otherwise resolve via the pixel search
when a target node exists, committing the resolved position on success and
returning the previous list unchanged on failure.  The caller passes the
same registered node that `nodeRefs.current` holds, so target-node
presence is the registry entry's presence. -/
def updatePlacement (ctx : PageCtx) (prev : List PlacedSticker)
    (next : PlacedSticker) : List PlacedSticker :=
  match prev.find? (fun item => item.id == next.id) with
  | none => prev
  | some existing =>
    if validatePlacement ctx next prev none then replaceById prev next
    else
      match ctx.nodeRects next.id with
      | none => prev
      | some _ =>
        match resolvePlacement ctx next existing prev with
        | none => prev
        | some resolved =>
          match stickerLookup ctx next.stickerId with
          | none => prev
          | some sticker =>
            match truthyDim sticker.widthMm, truthyDim sticker.heightMm with
            | some w, some h =>
              replaceById prev
                { next with
                    xMm := (resolved.1 - ctx.sheetOriginPx.1) / ctx.scalePxPerMm - w / 2
                    yMm := (resolved.2 - ctx.sheetOriginPx.2) / ctx.scalePxPerMm - h / 2 }
            | _, _ => prev

/-- The rotation-slider flow: the slider handler first commits the new
rotation into the placed list, then (after the node re-renders with that
rotation, which `ctx` reflects) runs `updatePlacement` on the already
committed list when the node is registered. -/
def rotateSelected (ctx : PageCtx) (placed : List PlacedSticker)
    (selectedPlacement : PlacedSticker) (angle : ℝ) : List PlacedSticker :=
  match ctx.nodeRects selectedPlacement.id with
  | none => replaceById placed { selectedPlacement with rotationDeg := angle }
  | some _ =>
    updatePlacement ctx
      (replaceById placed { selectedPlacement with rotationDeg := angle })
      { selectedPlacement with rotationDeg := angle }

/-- The PrintPage state touched by the sheet-configuration handlers. -/
structure PrintPageState where
  paperSize : PaperSize
  marginMm : ℝ
  gapMm : ℝ
  placed : List PlacedSticker
  selectedId : Option String
  pdfUrl : Option String

/-- The paper-size select `onChange`: set the paper size and clear the
placed list, the selection and the generated PDF. -/
def onPaperSizeChange (st : PrintPageState) (value : PaperSize) : PrintPageState :=
  { st with paperSize := value, placed := [], selectedId := none, pdfUrl := none }

/-- The margin input `onChange`: clamp to `max 0` and store; nothing else
changes. -/
def onMarginChange (st : PrintPageState) (value : ℝ) : PrintPageState :=
  { st with marginMm := max 0 value }

/-- The gap input `onChange`: clamp to `max 0` and store; nothing else
changes. -/
def onGapChange (st : PrintPageState) (value : ℝ) : PrintPageState :=
  { st with gapMm := max 0 value }

/-- The `deleteSelected` handler: filter the selected placement out, no
re-layout of the rest. -/
def deleteSelected (st : PrintPageState) : PrintPageState :=
  match st.selectedId with
  | none => st
  | some sel =>
    { st with placed := st.placed.filter (fun item => item.id != sel)
              selectedId := none, pdfUrl := none }

/-- The committed-state invariant of the spec, over the data model: every
placement with a computable gap-expanded rotated bbox has it inside the
printable rectangle, and the boxes of placements with distinct ids do not
intersect (touching counts as intersecting). -/
def PlacementsValid (ctx : PageCtx) (placed : List PlacedSticker) : Prop :=
  (∀ p ∈ placed, ∃ rect, getPlacementRectPx ctx p = some rect ∧
      insideRect rect (printableRectPx ctx)) ∧
  (∀ p ∈ placed, ∀ q ∈ placed, p.id ≠ q.id →
    ∀ rp rq, getPlacementRectPx ctx p = some rp → getPlacementRectPx ctx q = some rq →
      ¬ rectsIntersect rp rq)

/-- Minimal-index specification of the millimeter search: the returned
placement is the first candidate of the staged sequence (start, axis
nudges in order +x/−x/+y/−y with step `max(2, gap)`, then 140 rings of 24
angle samples, ring loop outermost) that passes `validatePlacementRect`;
every earlier candidate fails. -/
def MmSearchOrdered (ctx : PageCtx) (base : PlacedSticker)
    (placements : List PlacedSticker) (start : ℝ × ℝ) (found : PlacedSticker) : Prop :=
  ∃ i : ℕ, ∃ hi : i < (searchPoints start (max 2 ctx.gapMm) 140 24).length,
    found = candidateAt base ((searchPoints start (max 2 ctx.gapMm) 140 24).get ⟨i, hi⟩) ∧
    validatePlacementRect ctx found placements ∧
    ∀ j : ℕ, ∀ hj : j < (searchPoints start (max 2 ctx.gapMm) 140 24).length, j < i →
      ¬ validatePlacementRect ctx
          (candidateAt base ((searchPoints start (max 2 ctx.gapMm) 140 24).get ⟨j, hj⟩))
          placements

/-- Minimal-index specification of the pixel search: the returned center is
the first of the staged center sequence (start, axis nudges, rings of 20
angle samples with ring loop outermost, then the original center) passing
`tryCenter`; every earlier center fails. -/
def PxSearchOrdered (ctx : PageCtx) (base : PlacedSticker) (wMm hMm : ℝ)
    (placements : List PlacedSticker) (startCenter originalCenter : ℝ × ℝ)
    (maxRadiusPx stepPx gapPx : ℝ) (c : ℝ × ℝ) : Prop :=
  ∃ i : ℕ, ∃ hi : i < (pxSearchCenters startCenter originalCenter stepPx maxRadiusPx).length,
    c = (pxSearchCenters startCenter originalCenter stepPx maxRadiusPx).get ⟨i, hi⟩ ∧
    tryCenterValid ctx base wMm hMm placements gapPx c ∧
    ∀ j : ℕ, ∀ hj : j < (pxSearchCenters startCenter originalCenter stepPx maxRadiusPx).length,
      j < i →
      ¬ tryCenterValid ctx base wMm hMm placements gapPx
          ((pxSearchCenters startCenter originalCenter stepPx maxRadiusPx).get ⟨j, hj⟩)

/-- Fixture: a 50×50 mm sticker with usable metadata. -/
def stickerA : SavedSticker := ⟨"sticker-a", some 50, some 50⟩

/-- Fixture: placement of `stickerA` at `(x, y)` with no rotation. -/
def candA (x y : ℝ) : PlacedSticker := ⟨"placed-a", "sticker-a", x, y, 0⟩

/-- Fixture: Scenario-A context — A4 paper, margin 7mm, gap 2mm, catalog
containing only `stickerA`, arbitrary stage transform, no nodes
registered. -/
def ctxA (origin : ℝ × ℝ) (s : ℝ) : PageCtx :=
  { paperSize := .A4, marginMm := 7, gapMm := 2, stickers := [stickerA]
    sheetOriginPx := origin, scalePxPerMm := s, stagePresent := true
    nodeRects := fun _ => none }

/-- Fixture: the Scenario-A context with identity transform and margin
`m`, all other configuration unchanged. -/
def ctxMargin (m : ℝ) : PageCtx := { ctxA (0, 0) 1 with marginMm := m }

/-- Fixture: the Scenario-A context whose node registry reports client
rect `r` for placement `placed-a` — only rendering state varies. -/
def ctxNode (r : Rect) : PageCtx :=
  { ctxA (0, 0) 1 with nodeRects := fun i => if i = "placed-a" then some r else none }

/-- Fixture: a sticker whose recorded width is negative. -/
def stickerNeg : SavedSticker := ⟨"sticker-neg", some (-50), some 50⟩

/-- Fixture: context whose catalog contains only the negative-width
sticker. -/
def ctxNeg : PageCtx :=
  { paperSize := .A4, marginMm := 7, gapMm := 2, stickers := [stickerNeg]
    sheetOriginPx := (0, 0), scalePxPerMm := 1, stagePresent := true
    nodeRects := fun _ => none }

/-- Fixture: a 140×140 mm sticker — fits the A4 printable area unrotated,
too wide once rotated 45°. -/
def stickerBig : SavedSticker := ⟨"sticker-big", some 140, some 140⟩

/-- Fixture: `stickerBig` committed at (20, 20) with no rotation. -/
def pBig : PlacedSticker := ⟨"placed-big", "sticker-big", 20, 20, 0⟩

/-- Fixture: the same placement carrying the slider-requested 45°
rotation. -/
def pBigRot : PlacedSticker := { pBig with rotationDeg := 45 }

/-- Fixture: context of the failed-rotate scenario — identity transform,
stage present, and the placement's node re-rendered at 45°, so the
registry reports the rotated client rect centered at the node position
(90, 90). -/
def ctxBig : PageCtx :=
  { paperSize := .A4, marginMm := 7, gapMm := 2, stickers := [stickerBig]
    sheetOriginPx := (0, 0), scalePxPerMm := 1, stagePresent := true
    nodeRects := fun i => if i = "placed-big" then
      some (nodeClientRect 140 140 45 (90, 90)) else none }

/-! Generic facts about the first-match scan `firstHit`. -/

theorem firstHit_cons (valid : ℝ × ℝ → Prop) (p : ℝ × ℝ) (rest : List (ℝ × ℝ)) :
    firstHit valid (p :: rest) = if valid p then some p else firstHit valid rest := rfl

theorem firstHit_cons_pos {valid : ℝ × ℝ → Prop} {p : ℝ × ℝ} (rest : List (ℝ × ℝ))
    (h : valid p) : firstHit valid (p :: rest) = some p := by
  rw [firstHit_cons, if_pos h]

theorem firstHit_cons_neg {valid : ℝ × ℝ → Prop} {p : ℝ × ℝ} (rest : List (ℝ × ℝ))
    (h : ¬ valid p) : firstHit valid (p :: rest) = firstHit valid rest := by
  rw [firstHit_cons, if_neg h]

theorem firstHit_append_none {valid : ℝ × ℝ → Prop} {l₁ : List (ℝ × ℝ)}
    (l₂ : List (ℝ × ℝ)) (h : ∀ p ∈ l₁, ¬ valid p) :
    firstHit valid (l₁ ++ l₂) = firstHit valid l₂ := by
  induction l₁ with
  | nil => rfl
  | cons q t ih =>
    rw [List.cons_append, firstHit_cons_neg _ (h q (List.mem_cons_self q t))]
    exact ih (fun p hp => h p (List.mem_cons_of_mem q hp))

theorem firstHit_eq_none {valid : ℝ × ℝ → Prop} {l : List (ℝ × ℝ)}
    (h : ∀ p ∈ l, ¬ valid p) : firstHit valid l = none := by
  induction l with
  | nil => rfl
  | cons q t ih =>
    rw [firstHit_cons_neg _ (h q (List.mem_cons_self q t))]
    exact ih (fun p hp => h p (List.mem_cons_of_mem q hp))

theorem firstHit_valid {valid : ℝ × ℝ → Prop} {l : List (ℝ × ℝ)} {p : ℝ × ℝ}
    (h : firstHit valid l = some p) : valid p := by
  induction l with
  | nil => exact absurd h (by simp [firstHit])
  | cons q t ih =>
    rw [firstHit_cons] at h
    by_cases hq : valid q
    · rw [if_pos hq] at h
      cases h
      exact hq
    · rw [if_neg hq] at h
      exact ih h

theorem firstHit_min {valid : ℝ × ℝ → Prop} {l : List (ℝ × ℝ)} {p : ℝ × ℝ}
    (h : firstHit valid l = some p) :
    ∃ i : ℕ, ∃ hi : i < l.length, l.get ⟨i, hi⟩ = p ∧ valid p ∧
      ∀ j : ℕ, ∀ hj : j < l.length, j < i → ¬ valid (l.get ⟨j, hj⟩) := by
  induction l with
  | nil => exact absurd h (by simp [firstHit])
  | cons q t ih =>
    rw [firstHit_cons] at h
    by_cases hq : valid q
    · rw [if_pos hq] at h
      cases h
      exact ⟨0, by simp, rfl, hq, fun j hj hj0 => absurd hj0 (by omega)⟩
    · rw [if_neg hq] at h
      obtain ⟨i, hi, hget, hv, hmin⟩ := ih h
      refine ⟨i + 1, by simpa using Nat.succ_lt_succ hi, hget, hv, ?_⟩
      intro j hj hlt
      match j with
      | 0 => exact hq
      | j + 1 => exact hmin j (by simpa using Nat.lt_of_succ_lt_succ hj) (by omega)

/-! Indexing facts for the staged candidate list. -/

theorem flatMap_range'_map_getElem {α : Type} (A : ℕ) (g : ℕ → ℕ → α) :
    ∀ (n s r a : ℕ), r < n → a < A →
      ((List.range' s n).flatMap (fun ri => (List.range A).map (g ri)))[A * r + a]? =
        some (g (s + r) a) := by
  intro n
  induction n with
  | zero => intro s r a hr; omega
  | succ m ih =>
    intro s r a hr ha
    rw [List.range'_succ, List.flatMap_cons]
    match r with
    | 0 =>
      rw [List.getElem?_append_left (by simpa using ha)]
      simp [ha]
    | r + 1 =>
      have hlen : ((List.range A).map (g s)).length = A := by simp
      have hge : ((List.range A).map (g s)).length ≤ A * (r + 1) + a := by
        rw [hlen]; nlinarith
      rw [List.getElem?_append_right hge, hlen]
      have harith : A * (r + 1) + a - A = A * r + a := by
        have : A * (r + 1) = A * r + A := by ring
        omega
      rw [harith, ih (s + 1) r a (by omega) ha]
      congr 2
      omega

theorem searchPoints_getElem_ring (start : ℝ × ℝ) (step : ℝ) (R A r a : ℕ)
    (hr : r < R) (ha : a < A) :
    (searchPoints start step R A)[5 + (A * r + a)]? =
      some (ringPoint start step A r a) := by
  have hflat := flatMap_range'_map_getElem A (ringPoint start step A) R 0 r a hr ha
  rw [Nat.zero_add, ← List.range_eq_range'] at hflat
  unfold searchPoints
  have hexp : [start] ++ axisPoints start step ++
      (List.range R).flatMap (fun ringIdx => (List.range A).map (ringPoint start step A ringIdx)) =
      start :: (start.1 + step, start.2) :: (start.1 - step, start.2) ::
        (start.1, start.2 + step) :: (start.1, start.2 - step) ::
        (List.range R).flatMap (fun ringIdx => (List.range A).map (ringPoint start step A ringIdx)) := by
    simp [axisPoints]
  rw [hexp]
  have h5 : 5 + (A * r + a) = (A * r + a) + 5 := by omega
  rw [h5]
  simp only [List.getElem?_cons_succ]
  exact hflat

theorem searchPoints_length (start : ℝ × ℝ) (step : ℝ) (R A : ℕ) :
    (searchPoints start step R A).length = 1 + 4 + R * A := by
  simp only [searchPoints, axisPoints, List.length_append, List.length_flatMap,
    List.map_map, Function.comp_def, List.length_map, List.length_range,
    List.map_const', List.sum_replicate, smul_eq_mul, List.length_cons,
    List.length_singleton, List.length_nil]

theorem searchPoints_take5 (start : ℝ × ℝ) (step : ℝ) (R A : ℕ) :
    (searchPoints start step R A).take 5 =
      [start, (start.1 + step, start.2), (start.1 - step, start.2),
       (start.1, start.2 + step), (start.1, start.2 - step)] := rfl

/-! Basic geometry facts. -/

theorem rectsIntersect_comm {a b : Rect} (h : rectsIntersect a b) : rectsIntersect b a := by
  simp only [rectsIntersect, not_or, not_lt, gt_iff_lt] at h ⊢
  exact ⟨h.2.1, h.1, h.2.2.2, h.2.2.1⟩

theorem getRotatedBounds_zero (w h : ℝ) (hw : 0 ≤ w) (hh : 0 ≤ h) :
    getRotatedBounds w h 0 = (w, h) := by
  simp [getRotatedBounds, Real.cos_zero, Real.sin_zero, abs_of_nonneg, hw, hh]

/-! Computation helpers for `getPlacementRectPx` and the validators. -/

theorem getPlacementRectPx_eq (ctx : PageCtx) (p : PlacedSticker) (st : SavedSticker)
    (w h : ℝ) (hst : stickerLookup ctx p.stickerId = some st)
    (hw : truthyDim st.widthMm = some w) (hh : truthyDim st.heightMm = some h) :
    getPlacementRectPx ctx p = some (getExpandedRect
      { x := ctx.sheetOriginPx.1 + mmToPx ctx p.xMm + mmToPx ctx w / 2 -
              (getRotatedBounds (mmToPx ctx w) (mmToPx ctx h) p.rotationDeg).1 / 2
        y := ctx.sheetOriginPx.2 + mmToPx ctx p.yMm + mmToPx ctx h / 2 -
              (getRotatedBounds (mmToPx ctx w) (mmToPx ctx h) p.rotationDeg).2 / 2
        width := (getRotatedBounds (mmToPx ctx w) (mmToPx ctx h) p.rotationDeg).1
        height := (getRotatedBounds (mmToPx ctx w) (mmToPx ctx h) p.rotationDeg).2 }
      ((max 0 ctx.gapMm) * ctx.scalePxPerMm)) := by
  unfold getPlacementRectPx
  rw [hst]
  simp only [hw, hh]

theorem getPlacementRectPx_rot0 (ctx : PageCtx) (p : PlacedSticker) (st : SavedSticker)
    (w h : ℝ) (hst : stickerLookup ctx p.stickerId = some st)
    (hw : truthyDim st.widthMm = some w) (hh : truthyDim st.heightMm = some h)
    (hrot : p.rotationDeg = 0) (hs : 0 ≤ ctx.scalePxPerMm) (hw0 : 0 ≤ w) (hh0 : 0 ≤ h) :
    getPlacementRectPx ctx p = some
      { x := ctx.sheetOriginPx.1 + p.xMm * ctx.scalePxPerMm -
              (max 0 ctx.gapMm) * ctx.scalePxPerMm
        y := ctx.sheetOriginPx.2 + p.yMm * ctx.scalePxPerMm -
              (max 0 ctx.gapMm) * ctx.scalePxPerMm
        width := w * ctx.scalePxPerMm + (max 0 ctx.gapMm) * ctx.scalePxPerMm * 2
        height := h * ctx.scalePxPerMm + (max 0 ctx.gapMm) * ctx.scalePxPerMm * 2 } := by
  rw [getPlacementRectPx_eq ctx p st w h hst hw hh, hrot,
    getRotatedBounds_zero (mmToPx ctx w) (mmToPx ctx h)
      (mul_nonneg hw0 hs) (mul_nonneg hh0 hs)]
  simp only [getExpandedRect, mmToPx, Option.some.injEq, Rect.mk.injEq]
  refine ⟨?_, ?_, ?_, ?_⟩ <;> ring_nf

theorem validatePlacementRect_of_rect {ctx : PageCtx} {next : PlacedSticker} {r : Rect}
    (placements : List PlacedSticker) (h : getPlacementRectPx ctx next = some r) :
    validatePlacementRect ctx next placements ↔
      (insideRect r (printableRectPx ctx) ∧
       ∀ other ∈ placements, other.id ≠ next.id →
         ∀ otherRect, getPlacementRectPx ctx other = some otherRect →
           ¬ rectsIntersect r otherRect) := by
  unfold validatePlacementRect
  rw [h]

/-! Scenario-A computations: A4 paper, margin 7, gap 2, a single 50×50
sticker. -/

theorem stickerLookup_candA (o : ℝ × ℝ) (s x y : ℝ) :
    stickerLookup (ctxA o s) (candA x y).stickerId = some stickerA := rfl

theorem truthyDim_stickerA_w : truthyDim stickerA.widthMm = some 50 := by
  norm_num [truthyDim, stickerA]

theorem truthyDim_stickerA_h : truthyDim stickerA.heightMm = some 50 := by
  norm_num [truthyDim, stickerA]

theorem printableRect_ctxA (o : ℝ × ℝ) (s : ℝ) :
    printableRect (ctxA o s) = ⟨7, 7, 196, 283⟩ := by
  simp only [printableRect, ctxA, PAPER_SIZES, Rect.mk.injEq]
  norm_num

theorem printableRectPx_ctxA (o : ℝ × ℝ) (s : ℝ) :
    printableRectPx (ctxA o s) = ⟨o.1 + 7 * s, o.2 + 7 * s, 196 * s, 283 * s⟩ := by
  unfold printableRectPx mmToPx
  rw [printableRect_ctxA]
  rfl

theorem rectA (o : ℝ × ℝ) (s : ℝ) (hs : 0 ≤ s) (x y : ℝ) :
    getPlacementRectPx (ctxA o s) (candA x y) =
      some ⟨o.1 + x * s - 2 * s, o.2 + y * s - 2 * s, 54 * s, 54 * s⟩ := by
  rw [getPlacementRectPx_rot0 (ctxA o s) (candA x y) stickerA 50 50
    (stickerLookup_candA o s x y) truthyDim_stickerA_w truthyDim_stickerA_h rfl hs
    (by norm_num) (by norm_num)]
  have hmax : max (0 : ℝ) (ctxA o s).gapMm = 2 := by
    norm_num [ctxA]
  have hsE : (ctxA o s).scalePxPerMm = s := rfl
  have hoE : (ctxA o s).sheetOriginPx = o := rfl
  have hxE : (candA x y).xMm = x := rfl
  have hyE : (candA x y).yMm = y := rfl
  rw [hmax, hsE, hoE, hxE, hyE]
  simp only [Option.some.injEq, Rect.mk.injEq]
  refine ⟨?_, ?_, ?_, ?_⟩ <;> ring_nf

theorem validA_iff (o : ℝ × ℝ) (s : ℝ) (hs : 0 < s) (x y : ℝ) :
    validatePlacementRect (ctxA o s) (candA x y) [] ↔
      (9 ≤ x ∧ x ≤ 151 ∧ 9 ≤ y ∧ y ≤ 238) := by
  rw [validatePlacementRect_of_rect [] (rectA o s hs.le x y), printableRectPx_ctxA o s]
  simp only [insideRect, List.not_mem_nil, false_implies, implies_true, and_true, ge_iff_le]
  constructor
  · rintro ⟨h1, h2, h3, h4⟩
    exact ⟨by nlinarith, by nlinarith, by nlinarith, by nlinarith⟩
  · rintro ⟨h1, h2, h3, h4⟩
    exact ⟨by nlinarith, by nlinarith, by nlinarith, by nlinarith⟩

theorem scenarioA_firstHit (o : ℝ × ℝ) (s : ℝ) (hs : 0 < s) :
    firstHit (fun p => validatePlacementRect (ctxA o s) (candidateAt (candA 7 7) p) [])
        (searchPoints (7, 7) 2 140 24) = some (7 + 2 * Real.sqrt 3, 9) := by
  have hπ := Real.pi_pos
  have hPiff : ∀ p : ℝ × ℝ,
      validatePlacementRect (ctxA o s) (candidateAt (candA 7 7) p) [] ↔
        (9 ≤ p.1 ∧ p.1 ≤ 151 ∧ 9 ≤ p.2 ∧ p.2 ≤ 238) :=
    fun p => validA_iff o s hs p.1 p.2
  have hring1 : ∀ q ∈ (List.range 24).map (ringPoint (7, 7) 2 24 0),
      ¬ validatePlacementRect (ctxA o s) (candidateAt (candA 7 7) q) [] := by
    intro q hq
    obtain ⟨i, _, rfl⟩ := List.mem_map.mp hq
    rw [hPiff]
    rintro ⟨h1, _, h3, _⟩
    simp only [ringPoint] at h1 h3
    push_cast at h1 h3
    norm_num at h1 h3
    have hc := Real.sin_sq_add_cos_sq ((i : ℝ) / 24 * Real.pi * 2)
    nlinarith [mul_self_nonneg (Real.cos ((i : ℝ) / 24 * Real.pi * 2) - 1),
      mul_self_nonneg (Real.sin ((i : ℝ) / 24 * Real.pi * 2) - 1)]
  have hg0 : ¬ validatePlacementRect (ctxA o s)
      (candidateAt (candA 7 7) (ringPoint (7, 7) 2 24 1 0)) [] := by
    rw [hPiff]
    simp only [ringPoint]
    push_cast
    have hθ : (0 : ℝ) / 24 * Real.pi * 2 = 0 := by ring
    rw [hθ, Real.cos_zero, Real.sin_zero]
    norm_num
  have hg1 : ¬ validatePlacementRect (ctxA o s)
      (candidateAt (candA 7 7) (ringPoint (7, 7) 2 24 1 1)) [] := by
    rw [hPiff]
    simp only [ringPoint]
    push_cast
    have hθ : (1 : ℝ) / 24 * Real.pi * 2 = Real.pi / 12 := by ring
    rw [hθ]
    rintro ⟨_, _, h3, _⟩
    have hsin : Real.sin (Real.pi / 12) < 1 / 2 := by
      calc Real.sin (Real.pi / 12) < Real.sin (Real.pi / 6) :=
            Real.strictMonoOn_sin ⟨by linarith, by linarith⟩ ⟨by linarith, by linarith⟩
              (by linarith)
        _ = 1 / 2 := Real.sin_pi_div_six
    nlinarith
  have hg2 : validatePlacementRect (ctxA o s)
      (candidateAt (candA 7 7) (ringPoint (7, 7) 2 24 1 2)) [] := by
    rw [hPiff]
    simp only [ringPoint]
    push_cast
    have hθ : (2 : ℝ) / 24 * Real.pi * 2 = Real.pi / 6 := by ring
    rw [hθ, Real.cos_pi_div_six, Real.sin_pi_div_six]
    have h3a : (1 : ℝ) ≤ Real.sqrt 3 := by
      nlinarith [Real.sq_sqrt (by norm_num : (0 : ℝ) ≤ 3), Real.sqrt_nonneg (3 : ℝ)]
    have h3b : Real.sqrt 3 ≤ 2 := by
      nlinarith [Real.sq_sqrt (by norm_num : (0 : ℝ) ≤ 3), Real.sqrt_nonneg (3 : ℝ)]
    refine ⟨by nlinarith, by nlinarith, by norm_num, by norm_num⟩
  have hg2eq : ringPoint (7, 7) 2 24 1 2 = (7 + 2 * Real.sqrt 3, 9) := by
    simp only [ringPoint]
    push_cast
    have hθ : (2 : ℝ) / 24 * Real.pi * 2 = Real.pi / 6 := by ring
    rw [hθ, Real.cos_pi_div_six, Real.sin_pi_div_six, Prod.mk.injEq]
    constructor <;> ring
  have hrange140 : List.range 140 = 0 :: 1 :: List.range' 2 138 := by
    rw [List.range_eq_range']
    rfl
  have hrange24 : List.range 24 = 0 :: 1 :: 2 :: List.range' 3 21 := by
    rw [List.range_eq_range']
    rfl
  unfold searchPoints
  rw [hrange140, List.flatMap_cons, List.flatMap_cons]
  simp only [axisPoints, List.cons_append, List.nil_append]
  rw [firstHit_cons_neg _ (by rw [hPiff]; norm_num)]
  rw [firstHit_cons_neg _ (by rw [hPiff]; norm_num)]
  rw [firstHit_cons_neg _ (by rw [hPiff]; norm_num)]
  rw [firstHit_cons_neg _ (by rw [hPiff]; norm_num)]
  rw [firstHit_cons_neg _ (by rw [hPiff]; norm_num)]
  rw [firstHit_append_none _ hring1]
  rw [hrange24]
  simp only [List.map_cons, List.cons_append]
  rw [firstHit_cons_neg _ hg0, firstHit_cons_neg _ hg1, firstHit_cons_pos _ hg2, hg2eq]

theorem scenarioA_search (o : ℝ × ℝ) (s : ℝ) (hs : 0 < s) :
    findFirstValidPlacement (ctxA o s) (candA 7 7) [] (7, 7) =
      some (candA (7 + 2 * Real.sqrt 3) 9) := by
  unfold findFirstValidPlacement
  rw [stickerLookup_candA o s 7 7]
  simp only [truthyDim_stickerA_w, truthyDim_stickerA_h]
  have hg : (ctxA o s).gapMm = 2 := rfl
  rw [hg, max_self, scenarioA_firstHit o s hs]
  rfl

theorem scenarioA_add (o : ℝ × ℝ) (s : ℝ) (hs : 0 < s) :
    addStickerToSheet (ctxA o s) "placed-a" stickerA [] =
      (AddOutcome.added (candA (7 + 2 * Real.sqrt 3) 9),
       [candA (7 + 2 * Real.sqrt 3) 9]) := by
  unfold addStickerToSheet
  simp only [truthyDim_stickerA_w, truthyDim_stickerA_h, printableRect_ctxA]
  rw [show findFirstValidPlacement (ctxA o s) ⟨"placed-a", stickerA.id, 7, 7, 0⟩ [] (7, 7) =
      some (candA (7 + 2 * Real.sqrt 3) 9) from scenarioA_search o s hs]
  rfl

/-! Helpers for the rendering-coupled validator `validatePlacement`. -/

theorem validatePlacement_absent {ctx : PageCtx} {next : PlacedSticker}
    {st : SavedSticker} {w h : ℝ} (placements : List PlacedSticker) (gpo : Option ℝ)
    (hst : stickerLookup ctx next.stickerId = some st)
    (hw : truthyDim st.widthMm = some w) (hh : truthyDim st.heightMm = some h)
    (habs : ctx.stagePresent = false ∨ ctx.nodeRects next.id = none) :
    validatePlacement ctx next placements gpo := by
  unfold validatePlacement
  rw [hst]
  simp only [hw, hh]
  rcases habs with hb | hn
  · rw [hb]
    trivial
  · cases hsp : ctx.stagePresent
    · trivial
    · rw [hn]
      trivial

theorem validatePlacement_of_node {ctx : PageCtx} {next : PlacedSticker}
    {st : SavedSticker} {w h : ℝ} {rect : Rect}
    (placements : List PlacedSticker) (gpo : Option ℝ)
    (hst : stickerLookup ctx next.stickerId = some st)
    (hw : truthyDim st.widthMm = some w) (hh : truthyDim st.heightMm = some h)
    (hstage : ctx.stagePresent = true) (hnode : ctx.nodeRects next.id = some rect) :
    validatePlacement ctx next placements gpo ↔
      (insideRect
          (getExpandedRect rect (gpo.getD ((max 0 ctx.gapMm) * ctx.scalePxPerMm)))
          (printableRectPx ctx) ∧
       ∀ other ∈ placements, other.id ≠ next.id →
         ∀ otherRect, ctx.nodeRects other.id = some otherRect →
           ¬ rectsIntersect
               (getExpandedRect rect (gpo.getD ((max 0 ctx.gapMm) * ctx.scalePxPerMm)))
               (getExpandedRect otherRect
                 (gpo.getD ((max 0 ctx.gapMm) * ctx.scalePxPerMm)))) := by
  unfold validatePlacement
  rw [hst]
  simp only [hw, hh]
  rw [hstage, hnode]

/-- C2 (corrected): on the Scenario-A configuration the printable rect is
(7,7)–196×283 as the spec says, but the add does not land at (7,7): the
validator requires the gap-expanded box inside the printable rect, so the
first accepted candidate is the ring-2, 30° sample (7 + 2√3, 9). -/
theorem C2_scenarioA_theorem (o : ℝ × ℝ) (s : ℝ) (hs : 0 < s) :
    printableRect (ctxA o s) = ⟨7, 7, 196, 283⟩ ∧
    addStickerToSheet (ctxA o s) "placed-a" stickerA [] =
      (AddOutcome.added (candA (7 + 2 * Real.sqrt 3) 9),
       [candA (7 + 2 * Real.sqrt 3) 9]) :=
  ⟨printableRect_ctxA o s, scenarioA_add o s hs⟩

/-- C2 witness: the Scenario-A landing evaluated at the identity stage
transform. -/
theorem C2_scenarioA_witness :
    printableRect (ctxA (0, 0) 1) = ⟨7, 7, 196, 283⟩ ∧
    addStickerToSheet (ctxA (0, 0) 1) "placed-a" stickerA [] =
      (AddOutcome.added (candA (7 + 2 * Real.sqrt 3) 9),
       [candA (7 + 2 * Real.sqrt 3) 9]) :=
  C2_scenarioA_theorem (0, 0) 1 one_pos

/-- C2 counterexample: the direct candidate at (7,7) fails validation (its
expanded box sticks 2mm into the margin), and the Scenario-A add does not
commit the placement at (7,7). -/
theorem C2_scenarioA_counterexample :
    ¬ validatePlacementRect (ctxA (0, 0) 1) (candA 7 7) [] ∧
    addStickerToSheet (ctxA (0, 0) 1) "placed-a" stickerA [] ≠
      (AddOutcome.added (candA 7 7), [candA 7 7]) := by
  constructor
  · rw [validA_iff (0, 0) 1 one_pos]
    norm_num
  · rw [scenarioA_add (0, 0) 1 one_pos]
    intro hcontra
    have h9 : (9 : ℝ) = 7 := by
      have := congrArg (fun q => q.1) hcontra
      simp only [AddOutcome.added.injEq, candA, PlacedSticker.mk.injEq] at this
      exact this.2.2.2.1
    norm_num at h9

/-- C3 (amended): `rectsIntersect` does use strict separation comparisons,
so edge-adjacent rectangles — sharing any of the four boundaries, vertical
or horizontal, with touching ranges on the other axis — count as
intersecting, in both argument orders; but the containment test uses
non-strict comparisons, so a candidate whose expanded box exactly touches
the printable rect's edge is accepted, not rejected. -/
theorem C3_strict_overlap_nonstrict_containment :
    (∀ a b : Rect, 0 ≤ a.width → 0 ≤ a.height → 0 ≤ b.width → 0 ≤ b.height →
      (((a.x + a.width = b.x ∨ b.x + b.width = a.x) ∧
         a.y ≤ b.y + b.height ∧ b.y ≤ a.y + a.height) ∨
       ((a.y + a.height = b.y ∨ b.y + b.height = a.y) ∧
         a.x ≤ b.x + b.width ∧ b.x ≤ a.x + a.width)) →
      rectsIntersect a b ∧ rectsIntersect b a) ∧
    validatePlacementRect (ctxA (0, 0) 1) (candA 9 9) [] := by
  constructor
  · intro a b haw hah hbw hbh hadj
    have hab : rectsIntersect a b := by
      simp only [rectsIntersect, not_or, not_lt, gt_iff_lt]
      rcases hadj with ⟨hx | hx, hy1, hy2⟩ | ⟨hy | hy, hx1, hx2⟩ <;>
        exact ⟨by linarith, by linarith, by linarith, by linarith⟩
    exact ⟨hab, rectsIntersect_comm hab⟩
  · rw [validA_iff (0, 0) 1 one_pos]
    norm_num

/-- C3 witness: two unit squares sharing a vertical edge, and two
rectangles sharing a horizontal edge, intersect in both orders. -/
theorem C3_witness :
    (rectsIntersect ⟨0, 0, 1, 1⟩ ⟨1, 0, 1, 1⟩ ∧
     rectsIntersect ⟨1, 0, 1, 1⟩ ⟨0, 0, 1, 1⟩) ∧
    (rectsIntersect ⟨0, 0, 2, 1⟩ ⟨0, 1, 2, 1⟩ ∧
     rectsIntersect ⟨0, 1, 2, 1⟩ ⟨0, 0, 2, 1⟩) :=
  ⟨C3_strict_overlap_nonstrict_containment.1 ⟨0, 0, 1, 1⟩ ⟨1, 0, 1, 1⟩
    (by norm_num) (by norm_num) (by norm_num) (by norm_num)
    (Or.inl ⟨Or.inl (by norm_num), by norm_num, by norm_num⟩),
   C3_strict_overlap_nonstrict_containment.1 ⟨0, 0, 2, 1⟩ ⟨0, 1, 2, 1⟩
    (by norm_num) (by norm_num) (by norm_num) (by norm_num)
    (Or.inr ⟨Or.inl (by norm_num), by norm_num, by norm_num⟩)⟩

/-- C3 counterexample: the candidate at (9,9) has its expanded box exactly
on the printable rect's left and top edges, yet validation accepts it —
refuting the claim that the containment test rejects exact edge contact. -/
theorem C3_edge_touch_accepted :
    validatePlacementRect (ctxA (0, 0) 1) (candA 9 9) [] ∧
    getPlacementRectPx (ctxA (0, 0) 1) (candA 9 9) = some ⟨7, 7, 54, 54⟩ ∧
    printableRectPx (ctxA (0, 0) 1) = ⟨7, 7, 196, 283⟩ := by
  refine ⟨?_, ?_, ?_⟩
  · rw [validA_iff (0, 0) 1 one_pos]
    norm_num
  · rw [rectA (0, 0) 1 (by norm_num) 9 9]
    norm_num [Rect.mk.injEq]
  · rw [printableRectPx_ctxA (0, 0) 1]
    norm_num [Rect.mk.injEq]

/-- C6 (amended): the metadata guard screens out exactly the falsy
dimensions — a missing or zero width/height makes `add` fail with
`InvalidStickerMetadata` and leave the placed list untouched.  Negative
dimensions pass the guard (see the counterexample). -/
theorem C6_missing_or_zero_rejected (ctx : PageCtx) (newId : String)
    (sticker : SavedSticker) (placed : List PlacedSticker)
    (h : truthyDim sticker.widthMm = none ∨ truthyDim sticker.heightMm = none) :
    addStickerToSheet ctx newId sticker placed = (AddOutcome.invalidStickerMetadata, placed) := by
  unfold addStickerToSheet
  cases hw2 : truthyDim sticker.widthMm with
  | none => cases hh2 : truthyDim sticker.heightMm <;> rfl
  | some w2 =>
    cases hh2 : truthyDim sticker.heightMm with
    | none => rfl
    | some h2 =>
      rcases h with h | h
      · rw [hw2] at h
        exact absurd h (by simp)
      · rw [hh2] at h
        exact absurd h (by simp)

/-- C6 witness: a sticker with a missing width is rejected with no state
change. -/
theorem C6_witness :
    addStickerToSheet (ctxA (0, 0) 1) "placed-none" ⟨"sticker-none", none, some 50⟩ [] =
      (AddOutcome.invalidStickerMetadata, []) :=
  C6_missing_or_zero_rejected (ctxA (0, 0) 1) "placed-none" ⟨"sticker-none", none, some 50⟩ []
    (Or.inl rfl)

/-- C6 counterexample: a sticker with width −50 passes the falsy guard, so
`add` does not fail with `InvalidStickerMetadata` — geometry does run on a
negative width, refuting the claim. -/
theorem C6_negative_width_not_rejected :
    truthyDim stickerNeg.widthMm = some (-50) ∧
    (addStickerToSheet ctxNeg "placed-neg" stickerNeg []).1 ≠
      AddOutcome.invalidStickerMetadata := by
  have hw : truthyDim stickerNeg.widthMm = some (-50) := by
    norm_num [truthyDim, stickerNeg]
  have hh : truthyDim stickerNeg.heightMm = some 50 := by
    norm_num [truthyDim, stickerNeg]
  refine ⟨hw, ?_⟩
  unfold addStickerToSheet
  rw [hw]
  simp only [hh]
  split <;> simp

/-- C7: changing the paper size clears all placements regardless of prior
content, while margin and gap edits leave the committed placed list
exactly as it was — no re-validation and no mutation of any placement. -/
theorem C7_reconfigure_asymmetry (st : PrintPageState) (p : PaperSize) (m g : ℝ) :
    (onPaperSizeChange st p).placed = [] ∧
    (onMarginChange st m).placed = st.placed ∧
    (onGapChange st g).placed = st.placed :=
  ⟨rfl, rfl, rfl⟩

/-- C8: the millimeter search tests exactly 1 + 4 + 140·24 candidates; the
pixel search's step is max(8, gap) ≥ 8 > 0 and its candidate list is
finite with 1 + 4 + 20·⌊maxRadius/step⌋ + 1 entries. -/
theorem C8_bounded_search :
    (∀ start : ℝ × ℝ, ∀ g : ℝ,
      (searchPoints start (max 2 g) 140 24).length = 1 + 4 + 140 * 24) ∧
    (∀ g : ℝ, (0 : ℝ) < max 8 g ∧ (8 : ℝ) ≤ max 8 g) ∧
    (∀ sc oc : ℝ × ℝ, ∀ step maxR : ℝ,
      (pxSearchCenters sc oc step maxR).length =
        1 + 4 + 20 * pxRingCount maxR step + 1) := by
  refine ⟨?_, ?_, ?_⟩
  · intro start g
    rw [searchPoints_length]
  · intro g
    exact ⟨lt_of_lt_of_le (by norm_num) (le_max_left 8 g), le_max_left 8 g⟩
  · intro sc oc step maxR
    simp only [pxSearchCenters, List.length_append, searchPoints_length,
      List.length_singleton]
    omega

/-- C9 (amended): the data-model validator and the millimeter search are
untouched by rendering state — their results are literally identical under
any change of the stage flag and node registry (hence also deterministic);
the pixel validator, by contrast, reads the node registry, see the
counterexample. -/
theorem C9_mm_validator_pure (ctx : PageCtx) (f : String → Option Rect) (b : Bool)
    (next base : PlacedSticker) (placements : List PlacedSticker) (start : ℝ × ℝ) :
    (validatePlacementRect { ctx with nodeRects := f, stagePresent := b } next placements ↔
      validatePlacementRect ctx next placements) ∧
    findFirstValidPlacement { ctx with nodeRects := f, stagePresent := b }
        base placements start =
      findFirstValidPlacement ctx base placements start :=
  ⟨Iff.rfl, rfl⟩

theorem printableRectPx_ctxNode (r : Rect) :
    printableRectPx (ctxNode r) = ⟨7, 7, 196, 283⟩ := by
  show printableRectPx (ctxA (0, 0) 1) = _
  rw [printableRectPx_ctxA (0, 0) 1]
  norm_num [Rect.mk.injEq]

theorem stickerLookup_ctxNode (r : Rect) (x y : ℝ) :
    stickerLookup (ctxNode r) (candA x y).stickerId = some stickerA := rfl

theorem stagePresent_ctxNode (r : Rect) : (ctxNode r).stagePresent = true := rfl

theorem nodeRects_ctxNode (r : Rect) (x y : ℝ) :
    (ctxNode r).nodeRects (candA x y).id = some r := rfl

/-- C9 counterexample: with identical candidate, placement list, printable
rectangle and gap, the move/rotate validator `validatePlacement` returns
different booleans for two contexts that differ only in the node
registry — it reads live rendering state, refuting the claim. -/
theorem C9_pixel_validator_reads_rendering_state :
    validatePlacement (ctxNode ⟨50, 50, 10, 10⟩) (candA 30 30) [] none ∧
    ¬ validatePlacement (ctxNode ⟨0, 0, 10, 10⟩) (candA 30 30) [] none ∧
    ctxNode ⟨50, 50, 10, 10⟩ =
      { ctxNode ⟨0, 0, 10, 10⟩ with nodeRects := (ctxNode ⟨50, 50, 10, 10⟩).nodeRects } := by
  have hgap : ∀ r : Rect, (none : Option ℝ).getD
      ((max 0 (ctxNode r).gapMm) * (ctxNode r).scalePxPerMm) = 2 := by
    intro r
    norm_num [ctxNode, ctxA, Option.getD]
  refine ⟨?_, ?_, rfl⟩
  · rw [validatePlacement_of_node [] none (stickerLookup_ctxNode ⟨50, 50, 10, 10⟩ 30 30)
      truthyDim_stickerA_w truthyDim_stickerA_h (stagePresent_ctxNode _)
      (nodeRects_ctxNode ⟨50, 50, 10, 10⟩ 30 30), hgap, printableRectPx_ctxNode]
    simp only [getExpandedRect, insideRect, List.not_mem_nil, false_implies,
      implies_true, and_true, ge_iff_le]
    norm_num
  · rw [validatePlacement_of_node [] none (stickerLookup_ctxNode ⟨0, 0, 10, 10⟩ 30 30)
      truthyDim_stickerA_w truthyDim_stickerA_h (stagePresent_ctxNode _)
      (nodeRects_ctxNode ⟨0, 0, 10, 10⟩ 30 30), hgap, printableRectPx_ctxNode]
    simp only [getExpandedRect, insideRect, List.not_mem_nil, false_implies,
      implies_true, and_true, ge_iff_le]
    norm_num

/-- C10: when the stage reference or the candidate's registered node is
absent (and the sticker metadata is usable, as it is for any placement the
page created), `validatePlacement` returns true with no geometric check,
and `updatePlacement` therefore commits the requested placement
unconditionally. -/
theorem C10_absent_node_bypasses_validation (ctx : PageCtx) (next : PlacedSticker)
    (placements : List PlacedSticker) (gpo : Option ℝ) (st : SavedSticker) (w h : ℝ)
    (hst : stickerLookup ctx next.stickerId = some st)
    (hw : truthyDim st.widthMm = some w) (hh : truthyDim st.heightMm = some h)
    (habs : ctx.stagePresent = false ∨ ctx.nodeRects next.id = none) :
    validatePlacement ctx next placements gpo ∧
    (∀ prev existing, prev.find? (fun item => item.id == next.id) = some existing →
      updatePlacement ctx prev next = replaceById prev next) := by
  refine ⟨validatePlacement_absent placements gpo hst hw hh habs, ?_⟩
  intro prev existing hfind
  have hval2 := validatePlacement_absent prev none hst hw hh habs
  unfold updatePlacement
  simp only [hfind, hval2, if_true]

/-- C10 witness: with no node registered, a move of `placed-a` to the far
out-of-bounds point (300, 300) is validated as true and committed. -/
theorem C10_witness :
    validatePlacement (ctxA (0, 0) 1) (candA 300 300) [candA 0 0] none ∧
    updatePlacement (ctxA (0, 0) 1) [candA 0 0] (candA 300 300) = [candA 300 300] := by
  have h := C10_absent_node_bypasses_validation (ctxA (0, 0) 1) (candA 300 300) [candA 0 0]
    none stickerA 50 50 rfl truthyDim_stickerA_w truthyDim_stickerA_h (Or.inr rfl)
  refine ⟨h.1, ?_⟩
  rw [h.2 [candA 0 0] (candA 0 0) rfl]
  rfl

/-! Invariant preservation machinery. -/

theorem findFirstValidPlacement_some {ctx : PageCtx} {base found : PlacedSticker}
    {placements : List PlacedSticker} {start : ℝ × ℝ}
    (h : findFirstValidPlacement ctx base placements start = some found) :
    found.id = base.id ∧ validatePlacementRect ctx found placements := by
  unfold findFirstValidPlacement at h
  cases hst : stickerLookup ctx base.stickerId with
  | none =>
    rw [hst] at h
    exact Option.noConfusion h
  | some st =>
    rw [hst] at h
    cases hw : truthyDim st.widthMm with
    | none => simp [hw] at h
    | some w =>
      cases hh : truthyDim st.heightMm with
      | none => simp [hw, hh] at h
      | some hgt =>
        simp only [hw, hh] at h
        obtain ⟨p, hp, rfl⟩ := Option.map_eq_some'.mp h
        exact ⟨rfl, firstHit_valid hp⟩

theorem PlacementsValid_nil (ctx : PageCtx) : PlacementsValid ctx [] :=
  ⟨by simp, by simp⟩

theorem PlacementsValid_subset {ctx : PageCtx} {l₁ l₂ : List PlacedSticker}
    (hsub : ∀ p ∈ l₂, p ∈ l₁) (hv : PlacementsValid ctx l₁) : PlacementsValid ctx l₂ :=
  ⟨fun p hp => hv.1 p (hsub p hp),
   fun p hp q hq hne => hv.2 p (hsub p hp) q (hsub q hq) hne⟩

theorem PlacementsValid_append {ctx : PageCtx} {placed : List PlacedSticker}
    {found : PlacedSticker} (hv : PlacementsValid ctx placed)
    (hval : validatePlacementRect ctx found placed)
    (hfresh : ∀ p ∈ placed, p.id ≠ found.id) :
    PlacementsValid ctx (placed ++ [found]) := by
  cases hr : getPlacementRectPx ctx found with
  | none =>
    unfold validatePlacementRect at hval
    rw [hr] at hval
    exact hval.elim
  | some r =>
    rw [validatePlacementRect_of_rect placed hr] at hval
    obtain ⟨hin, hover⟩ := hval
    constructor
    · intro p hp
      rcases List.mem_append.mp hp with hp | hp
      · exact hv.1 p hp
      · rw [List.mem_singleton] at hp
        subst hp
        exact ⟨r, hr, hin⟩
    · intro p hp q hq hne rp rq hrp hrq
      rcases List.mem_append.mp hp with hp1 | hp1
      · rcases List.mem_append.mp hq with hq1 | hq1
        · exact hv.2 p hp1 q hq1 hne rp rq hrp hrq
        · rw [List.mem_singleton] at hq1
          subst hq1
          rw [hr] at hrq
          cases hrq
          intro hint
          exact hover p hp1 (hfresh p hp1) rp hrp (rectsIntersect_comm hint)
      · rw [List.mem_singleton] at hp1
        subst hp1
        rcases List.mem_append.mp hq with hq1 | hq1
        · rw [hr] at hrp
          cases hrp
          exact hover q hq1 (hfresh q hq1) rq hrq
        · rw [List.mem_singleton] at hq1
          subst hq1
          exact absurd rfl hne

theorem addStickerToSheet_snd (ctx : PageCtx) (newId : String) (sticker : SavedSticker)
    (placed : List PlacedSticker) :
    (addStickerToSheet ctx newId sticker placed).2 = placed ∨
    ∃ found, findFirstValidPlacement ctx
        ⟨newId, sticker.id, (printableRect ctx).x, (printableRect ctx).y, 0⟩
        placed ((printableRect ctx).x, (printableRect ctx).y) = some found ∧
      (addStickerToSheet ctx newId sticker placed).2 = placed ++ [found] := by
  unfold addStickerToSheet
  rcases truthyDim sticker.widthMm with _ | w <;>
    rcases truthyDim sticker.heightMm with _ | h2
  · exact Or.inl rfl
  · exact Or.inl rfl
  · exact Or.inl rfl
  · cases hfind : findFirstValidPlacement ctx
        ⟨newId, sticker.id, (printableRect ctx).x, (printableRect ctx).y, 0⟩
        placed ((printableRect ctx).x, (printableRect ctx).y) with
    | none => exact Or.inl rfl
    | some found => exact Or.inr ⟨found, rfl, rfl⟩

theorem duplicateSelected_snd (ctx : PageCtx) (newId : String) (sel : PlacedSticker)
    (placed : List PlacedSticker) :
    (duplicateSelected ctx newId sel placed).2 = placed ∨
    ∃ found, findFirstValidPlacement ctx
        { sel with
            id := newId
            xMm := sel.xMm +
              ((stickerLookup ctx sel.stickerId).bind SavedSticker.widthMm).getD 10 +
              ctx.gapMm }
        placed
        (sel.xMm + ((stickerLookup ctx sel.stickerId).bind SavedSticker.widthMm).getD 10 +
          ctx.gapMm, sel.yMm) = some found ∧
      (duplicateSelected ctx newId sel placed).2 = placed ++ [found] := by
  unfold duplicateSelected
  cases hfind : findFirstValidPlacement ctx
      { sel with
          id := newId
          xMm := sel.xMm +
            ((stickerLookup ctx sel.stickerId).bind SavedSticker.widthMm).getD 10 +
            ctx.gapMm }
      placed
      (sel.xMm + ((stickerLookup ctx sel.stickerId).bind SavedSticker.widthMm).getD 10 +
        ctx.gapMm, sel.yMm) with
  | none => exact Or.inl rfl
  | some found => exact Or.inr ⟨found, rfl, rfl⟩

/-- C1 (amended): the committed-state invariant (gap-expanded rotated
boxes inside the printable rect, pairwise non-intersecting with touching
counting as intersecting) is preserved by add, duplicate, remove and the
paper-size reset, provided the appended id is fresh.  It is NOT preserved
by margin/gap reconfigure (no re-validation — see the counterexample) nor
by move/rotate, which validate against rendered node rectangles or skip
validation entirely when nodes are absent. -/
theorem C1_invariant_preserved (ctx : PageCtx) (placed : List PlacedSticker)
    (hv : PlacementsValid ctx placed) :
    (∀ newId sticker, (∀ p ∈ placed, p.id ≠ newId) →
      PlacementsValid ctx (addStickerToSheet ctx newId sticker placed).2) ∧
    (∀ newId sel, (∀ p ∈ placed, p.id ≠ newId) →
      PlacementsValid ctx (duplicateSelected ctx newId sel placed).2) ∧
    (∀ sel : String, PlacementsValid ctx (placed.filter (fun item => item.id != sel))) ∧
    (∀ st : PrintPageState, ∀ v : PaperSize, ∀ ctx2 : PageCtx,
      PlacementsValid ctx2 (onPaperSizeChange st v).placed) := by
  refine ⟨?_, ?_, ?_, ?_⟩
  · intro newId sticker hfresh
    rcases addStickerToSheet_snd ctx newId sticker placed with h | ⟨found, hfind, h⟩
    · rw [h]
      exact hv
    · rw [h]
      obtain ⟨hid, hvalid⟩ := findFirstValidPlacement_some hfind
      refine PlacementsValid_append hv hvalid ?_
      intro p hp
      rw [hid]
      exact hfresh p hp
  · intro newId sel hfresh
    rcases duplicateSelected_snd ctx newId sel placed with h | ⟨found, hfind, h⟩
    · rw [h]
      exact hv
    · rw [h]
      obtain ⟨hid, hvalid⟩ := findFirstValidPlacement_some hfind
      refine PlacementsValid_append hv hvalid ?_
      intro p hp
      rw [hid]
      exact hfresh p hp
  · intro sel
    exact PlacementsValid_subset (fun p hp => (List.mem_filter.mp hp).1) hv
  · intro st v ctx2
    exact PlacementsValid_nil ctx2

/-- C1 witness: starting from the empty (trivially valid) sheet, the
Scenario-A add leaves a valid committed state. -/
theorem C1_invariant_witness :
    PlacementsValid (ctxA (0, 0) 1)
      (addStickerToSheet (ctxA (0, 0) 1) "placed-a" stickerA []).2 :=
  (C1_invariant_preserved (ctxA (0, 0) 1) [] (PlacementsValid_nil _)).1
    "placed-a" stickerA (by simp)

theorem rectMargin (m x y : ℝ) :
    getPlacementRectPx (ctxMargin m) (candA x y) = some ⟨x - 2, y - 2, 54, 54⟩ := by
  rw [getPlacementRectPx_rot0 (ctxMargin m) (candA x y) stickerA 50 50 rfl
    truthyDim_stickerA_w truthyDim_stickerA_h rfl (by norm_num [ctxMargin, ctxA])
    (by norm_num) (by norm_num)]
  norm_num [ctxMargin, ctxA, candA, Rect.mk.injEq]

theorem printableRectPx_ctxMargin100 :
    printableRectPx (ctxMargin 100) = ⟨100, 100, 10, 97⟩ := by
  norm_num [printableRectPx, printableRect, ctxMargin, ctxA, PAPER_SIZES, mmToPx,
    Rect.mk.injEq]

/-- C1 counterexample: a committed state valid at margin 7 is left
untouched by the margin handler, but after reconfiguring the margin to 100
the invariant no longer holds — reconfigure does not preserve the
committed-state invariant, refuting the claim as stated. -/
theorem C1_reconfigure_margin_breaks_invariant :
    PlacementsValid (ctxMargin 7) [candA 9 9] ∧
    (onMarginChange ⟨PaperSize.A4, 7, 2, [candA 9 9], none, none⟩ 100).placed =
      [candA 9 9] ∧
    (onMarginChange ⟨PaperSize.A4, 7, 2, [candA 9 9], none, none⟩ 100).marginMm = 100 ∧
    ¬ PlacementsValid (ctxMargin 100) [candA 9 9] := by
  refine ⟨⟨?_, ?_⟩, rfl, by norm_num [onMarginChange], ?_⟩
  · intro p hp
    rw [List.mem_singleton] at hp
    subst hp
    refine ⟨_, rectMargin 7 9 9, ?_⟩
    show insideRect _ (printableRectPx (ctxA (0, 0) 1))
    rw [printableRectPx_ctxA (0, 0) 1]
    simp only [insideRect, ge_iff_le]
    norm_num
  · intro p hp q hq hne
    rw [List.mem_singleton] at hp hq
    subst hp
    subst hq
    exact absurd rfl hne
  · rintro ⟨hcont, _⟩
    obtain ⟨r, hr, hin⟩ := hcont (candA 9 9) (List.mem_singleton_self _)
    rw [rectMargin 100 9 9] at hr
    cases hr
    rw [printableRectPx_ctxMargin100] at hin
    simp only [insideRect, ge_iff_le] at hin
    norm_num at hin

/-! Search-order machinery. -/

theorem pxSearchCenters_getElem_ring (sc oc : ℝ × ℝ) (step maxR : ℝ) (r a : ℕ)
    (hr : r < pxRingCount maxR step) (ha : a < 20) :
    (pxSearchCenters sc oc step maxR)[5 + (20 * r + a)]? =
      some (ringPoint sc step 20 r a) := by
  unfold pxSearchCenters
  rw [List.getElem?_append_left (by rw [searchPoints_length]; omega)]
  exact searchPoints_getElem_ring sc step _ 20 r a hr ha

theorem pxSearchCenters_getElem_original (sc oc : ℝ × ℝ) (step maxR : ℝ) :
    (pxSearchCenters sc oc step maxR)[1 + 4 + 20 * pxRingCount maxR step]? = some oc := by
  unfold pxSearchCenters
  rw [List.getElem?_append_right (by rw [searchPoints_length]; omega),
    searchPoints_length]
  have h0 : 1 + 4 + 20 * pxRingCount maxR step - (1 + 4 + pxRingCount maxR step * 20) = 0 := by
    omega
  rw [h0]
  rfl

theorem findFirstValidPlacement_ordered {ctx : PageCtx} {base found : PlacedSticker}
    {placements : List PlacedSticker} {start : ℝ × ℝ}
    (h : findFirstValidPlacement ctx base placements start = some found) :
    MmSearchOrdered ctx base placements start found := by
  unfold findFirstValidPlacement at h
  cases hst : stickerLookup ctx base.stickerId with
  | none =>
    rw [hst] at h
    exact Option.noConfusion h
  | some st =>
    rw [hst] at h
    cases hw : truthyDim st.widthMm with
    | none => simp [hw] at h
    | some w =>
      cases hh : truthyDim st.heightMm with
      | none => simp [hw, hh] at h
      | some hgt =>
        simp only [hw, hh] at h
        obtain ⟨p, hp, rfl⟩ := Option.map_eq_some'.mp h
        obtain ⟨i, hi, hget, hvalid, hmin⟩ := firstHit_min hp
        exact ⟨i, hi, by rw [hget], hvalid, hmin⟩

theorem findNearestValidCenterPx_some {ctx : PageCtx} {base : PlacedSticker}
    {wMm hMm : ℝ} {placements : List PlacedSticker} {sc oc : ℝ × ℝ}
    {maxR step gap : ℝ} {c : ℝ × ℝ}
    (h : findNearestValidCenterPx ctx base wMm hMm placements sc oc maxR step gap = some c) :
    PxSearchOrdered ctx base wMm hMm placements sc oc maxR step gap c := by
  unfold findNearestValidCenterPx at h
  cases hsp : ctx.stagePresent with
  | false =>
    rw [hsp] at h
    exact Option.noConfusion h
  | true =>
    rw [hsp] at h
    obtain ⟨i, hi, hget, hv, hmin⟩ := firstHit_min h
    exact ⟨i, hi, hget.symm, hv, hmin⟩

/-- C4: both searches test candidates in the staged order and return the
first valid one.  The millimeter search result satisfies the minimal-index
specification over `searchPoints start (max 2 gap) 140 24`; the first five
candidates are the start and the four axis nudges in order +x, −x, +y, −y;
ring sample (r, a) sits at index 5 + 24·r + a (so the ring loop is
outermost and smaller radii always win, with angle order as tie-break);
the pixel search satisfies the same specification over its 20-sample
centers, and `resolvePlacement` calls it with step `max(8, gapPx)`. -/
theorem C4_search_order (ctx : PageCtx) (base : PlacedSticker)
    (placements : List PlacedSticker) (start : ℝ × ℝ) (found : PlacedSticker)
    (h : findFirstValidPlacement ctx base placements start = some found) :
    MmSearchOrdered ctx base placements start found ∧
    (searchPoints start (max 2 ctx.gapMm) 140 24).take 5 =
      [start, (start.1 + max 2 ctx.gapMm, start.2), (start.1 - max 2 ctx.gapMm, start.2),
       (start.1, start.2 + max 2 ctx.gapMm), (start.1, start.2 - max 2 ctx.gapMm)] ∧
    (∀ r a : ℕ, r < 140 → a < 24 →
      (searchPoints start (max 2 ctx.gapMm) 140 24)[5 + (24 * r + a)]? =
        some (ringPoint start (max 2 ctx.gapMm) 24 r a)) ∧
    (∀ (ctx2 : PageCtx) (base2 : PlacedSticker) (w2 h2 : ℝ)
       (pl2 : List PlacedSticker) (sc oc : ℝ × ℝ) (maxR step gap : ℝ) (c : ℝ × ℝ),
      findNearestValidCenterPx ctx2 base2 w2 h2 pl2 sc oc maxR step gap = some c →
      PxSearchOrdered ctx2 base2 w2 h2 pl2 sc oc maxR step gap c) ∧
    (∀ sc oc : ℝ × ℝ, ∀ step maxR : ℝ, ∀ r a : ℕ,
      r < pxRingCount maxR step → a < 20 →
      (pxSearchCenters sc oc step maxR)[5 + (20 * r + a)]? =
        some (ringPoint sc step 20 r a)) ∧
    (∀ (ctx2 : PageCtx) (next existing : PlacedSticker) (pl2 : List PlacedSticker)
       (st : SavedSticker) (w2 h2 : ℝ),
      stickerLookup ctx2 next.stickerId = some st → truthyDim st.widthMm = some w2 →
      truthyDim st.heightMm = some h2 →
      resolvePlacement ctx2 next existing pl2 =
        findNearestValidCenterPx ctx2 next w2 h2 pl2
          (ctx2.sheetOriginPx.1 + mmToPx ctx2 next.xMm + mmToPx ctx2 w2 / 2,
           ctx2.sheetOriginPx.2 + mmToPx ctx2 next.yMm + mmToPx ctx2 h2 / 2)
          (ctx2.sheetOriginPx.1 + mmToPx ctx2 existing.xMm + mmToPx ctx2 w2 / 2,
           ctx2.sheetOriginPx.2 + mmToPx ctx2 existing.yMm + mmToPx ctx2 h2 / 2)
          (max 200 (min (printableRectPx ctx2).width (printableRectPx ctx2).height))
          (max 8 ((max 0 ctx2.gapMm) * ctx2.scalePxPerMm))
          ((max 0 ctx2.gapMm) * ctx2.scalePxPerMm)) := by
  refine ⟨findFirstValidPlacement_ordered h, rfl, ?_, ?_, ?_, ?_⟩
  · intro r a hr ha
    exact searchPoints_getElem_ring start (max 2 ctx.gapMm) 140 24 r a hr ha
  · intro ctx2 base2 w2 h2 pl2 sc oc maxR step gap c hc
    exact findNearestValidCenterPx_some hc
  · intro sc oc step maxR r a hr ha
    exact pxSearchCenters_getElem_ring sc oc step maxR r a hr ha
  · intro ctx2 next existing pl2 st w2 h2 hst hw hh
    unfold resolvePlacement
    rw [hst]
    simp only [hw, hh]

theorem scenarioA_direct60 :
    findFirstValidPlacement (ctxA (0, 0) 1) (candA 60 60) [] (60, 60) =
      some (candA 60 60) := by
  unfold findFirstValidPlacement
  rw [stickerLookup_candA (0, 0) 1 60 60]
  simp only [truthyDim_stickerA_w, truthyDim_stickerA_h]
  have hg : (ctxA (0, 0) 1).gapMm = 2 := rfl
  rw [hg, max_self]
  have hvalid : validatePlacementRect (ctxA (0, 0) 1)
      (candidateAt (candA 60 60) (60, 60)) [] := by
    show validatePlacementRect (ctxA (0, 0) 1) (candA 60 60) []
    rw [validA_iff (0, 0) 1 one_pos]
    norm_num
  unfold searchPoints
  simp only [axisPoints, List.cons_append, List.nil_append]
  rw [firstHit_cons_pos _ hvalid]
  rfl

/-- C4 witness: a direct-hit search at (60, 60) on the Scenario-A sheet
satisfies the minimal-index specification. -/
theorem C4_search_order_witness :
    MmSearchOrdered (ctxA (0, 0) 1) (candA 60 60) [] (60, 60) (candA 60 60) :=
  (C4_search_order (ctxA (0, 0) 1) (candA 60 60) [] (60, 60) (candA 60 60)
    scenarioA_direct60).1

/-! The failed-rotate scenario: a 140×140 sticker rotated 45° cannot fit
anywhere on the A4 printable area, so the pixel search always fails. -/

theorem truthyDim_stickerBig_w : truthyDim stickerBig.widthMm = some 140 := by
  norm_num [truthyDim, stickerBig]

theorem truthyDim_stickerBig_h : truthyDim stickerBig.heightMm = some 140 := by
  norm_num [truthyDim, stickerBig]

theorem printableRectPx_ctxBig : printableRectPx ctxBig = ⟨7, 7, 196, 283⟩ := by
  show printableRectPx (ctxA (0, 0) 1) = _
  rw [printableRectPx_ctxA (0, 0) 1]
  norm_num [Rect.mk.injEq]

theorem printableRectPx_update_nodeRects (ctx : PageCtx) (f : String → Option Rect) :
    printableRectPx { ctx with nodeRects := f } = printableRectPx ctx := rfl

theorem getRotatedBounds_45 (w : ℝ) (hw : 0 ≤ w) :
    getRotatedBounds w w 45 = (w * Real.sqrt 2, w * Real.sqrt 2) := by
  unfold getRotatedBounds
  have hθ : (45 : ℝ) * Real.pi / 180 = Real.pi / 4 := by ring
  rw [hθ]
  show (|w * Real.cos (Real.pi / 4)| + |w * Real.sin (Real.pi / 4)|,
        |w * Real.sin (Real.pi / 4)| + |w * Real.cos (Real.pi / 4)|) =
      (w * Real.sqrt 2, w * Real.sqrt 2)
  rw [Real.cos_pi_div_four, Real.sin_pi_div_four]
  have h2 : (0 : ℝ) ≤ Real.sqrt 2 / 2 := by positivity
  rw [abs_of_nonneg (mul_nonneg hw h2)]
  simp only [Prod.mk.injEq]
  constructor <;> ring

theorem bigTooWide (gapPx : ℝ) (hg : 0 ≤ gapPx) (center : ℝ × ℝ) :
    ¬ insideRect
        (getExpandedRect
          ⟨center.1 - 140 * Real.sqrt 2 / 2, center.2 - 140 * Real.sqrt 2 / 2,
           140 * Real.sqrt 2, 140 * Real.sqrt 2⟩ gapPx)
        ⟨7, 7, 196, 283⟩ := by
  rintro ⟨h1, _, h3, _⟩
  simp only [getExpandedRect, ge_iff_le] at h1 h3
  have hs2 := Real.sq_sqrt (by norm_num : (0 : ℝ) ≤ 2)
  have hs2n := Real.sqrt_nonneg (2 : ℝ)
  have hub : (0 : ℝ) ≤ 196 - 140 * Real.sqrt 2 := by nlinarith
  have hlb : (0 : ℝ) ≤ 196 + 140 * Real.sqrt 2 := by nlinarith
  nlinarith [mul_nonneg hub hlb]

theorem rotBounds_ctxBig_45 :
    getRotatedBounds (mmToPx ctxBig 140) (mmToPx ctxBig 140) pBigRot.rotationDeg =
      (140 * Real.sqrt 2, 140 * Real.sqrt 2) := by
  show getRotatedBounds (140 * 1) (140 * 1) 45 = _
  rw [getRotatedBounds_45 (140 * 1) (by norm_num)]
  norm_num

theorem stickerLookup_movedBig (center : ℝ × ℝ) :
    stickerLookup
      { ctxBig with nodeRects := (setNodeRect ctxBig.nodeRects pBigRot.id
          (nodeClientRect (mmToPx ctxBig 140) (mmToPx ctxBig 140)
            pBigRot.rotationDeg center)) }
      (placementFromCenter ctxBig pBigRot 140 140 center).stickerId = some stickerBig := rfl

theorem stagePresent_movedBig (center : ℝ × ℝ) :
    ({ ctxBig with nodeRects := (setNodeRect ctxBig.nodeRects pBigRot.id
        (nodeClientRect (mmToPx ctxBig 140) (mmToPx ctxBig 140)
          pBigRot.rotationDeg center)) } : PageCtx).stagePresent = true := rfl

theorem nodeRects_movedBig (center : ℝ × ℝ) :
    ({ ctxBig with nodeRects := (setNodeRect ctxBig.nodeRects pBigRot.id
        (nodeClientRect (mmToPx ctxBig 140) (mmToPx ctxBig 140)
          pBigRot.rotationDeg center)) } : PageCtx).nodeRects
      (placementFromCenter ctxBig pBigRot 140 140 center).id =
      some (nodeClientRect (mmToPx ctxBig 140) (mmToPx ctxBig 140)
        pBigRot.rotationDeg center) := rfl

theorem tryCenterBig_fails (center : ℝ × ℝ) (gapPx : ℝ) (hg : 0 ≤ gapPx) :
    ¬ tryCenterValid ctxBig pBigRot 140 140 [pBigRot] gapPx center := by
  intro hval
  unfold tryCenterValid at hval
  have h := (validatePlacement_of_node [pBigRot] (some gapPx)
      (stickerLookup_movedBig center) truthyDim_stickerBig_w truthyDim_stickerBig_h
      (stagePresent_movedBig center) (nodeRects_movedBig center)).mp hval
  have hin := h.1
  rw [printableRectPx_update_nodeRects, printableRectPx_ctxBig] at hin
  unfold nodeClientRect at hin
  rw [rotBounds_ctxBig_45] at hin
  simp only [Option.getD_some] at hin
  exact bigTooWide gapPx hg center hin

theorem resolveBig_none : resolvePlacement ctxBig pBigRot pBigRot [pBigRot] = none := by
  unfold resolvePlacement
  rw [show stickerLookup ctxBig pBigRot.stickerId = some stickerBig from rfl]
  simp only [truthyDim_stickerBig_w, truthyDim_stickerBig_h]
  unfold findNearestValidCenterPx
  rw [show ctxBig.stagePresent = true from rfl]
  exact firstHit_eq_none (fun p _ => tryCenterBig_fails p _
    (mul_nonneg (le_max_left 0 _) (by norm_num [ctxBig])))

theorem validateBigFast_false : ¬ validatePlacement ctxBig pBigRot [pBigRot] none := by
  intro hval
  have h := (validatePlacement_of_node [pBigRot] none
      (show stickerLookup ctxBig pBigRot.stickerId = some stickerBig from rfl)
      truthyDim_stickerBig_w truthyDim_stickerBig_h
      (show ctxBig.stagePresent = true from rfl)
      (show ctxBig.nodeRects pBigRot.id =
        some (nodeClientRect 140 140 45 (90, 90)) from rfl)).mp hval
  have hin := h.1
  rw [printableRectPx_ctxBig] at hin
  have hrect : nodeClientRect 140 140 45 ((90 : ℝ), (90 : ℝ)) =
      ⟨(90 : ℝ) - 140 * Real.sqrt 2 / 2, (90 : ℝ) - 140 * Real.sqrt 2 / 2,
       140 * Real.sqrt 2, 140 * Real.sqrt 2⟩ := by
    unfold nodeClientRect
    rw [show getRotatedBounds (140 : ℝ) 140 45 = (140 * Real.sqrt 2, 140 * Real.sqrt 2)
      from getRotatedBounds_45 140 (by norm_num)]
  rw [hrect] at hin
  have hg : (0 : ℝ) ≤ (none : Option ℝ).getD ((max 0 ctxBig.gapMm) * ctxBig.scalePxPerMm) := by
    simp only [Option.getD_none]
    exact mul_nonneg (le_max_left 0 _) (by norm_num [ctxBig])
  exact bigTooWide _ hg ((90 : ℝ), (90 : ℝ)) hin

theorem rectBig45 :
    getPlacementRectPx ctxBig pBigRot =
      some (getExpandedRect
        ⟨(90 : ℝ) - 140 * Real.sqrt 2 / 2, (90 : ℝ) - 140 * Real.sqrt 2 / 2,
         140 * Real.sqrt 2, 140 * Real.sqrt 2⟩ 2) := by
  rw [getPlacementRectPx_eq ctxBig pBigRot stickerBig 140 140 rfl
    truthyDim_stickerBig_w truthyDim_stickerBig_h, rotBounds_ctxBig_45]
  have hcenter : ctxBig.sheetOriginPx.1 + mmToPx ctxBig pBigRot.xMm + mmToPx ctxBig 140 / 2 =
      (90 : ℝ) := by
    norm_num [ctxBig, mmToPx, pBigRot, pBig]
  have hcenter2 : ctxBig.sheetOriginPx.2 + mmToPx ctxBig pBigRot.yMm + mmToPx ctxBig 140 / 2 =
      (90 : ℝ) := by
    norm_num [ctxBig, mmToPx, pBigRot, pBig]
  rw [hcenter, hcenter2]
  have hgap : (max 0 ctxBig.gapMm) * ctxBig.scalePxPerMm = 2 := by
    norm_num [ctxBig]
  rw [hgap]

theorem updatePlacement_revert {ctx : PageCtx} {prev : List PlacedSticker}
    {next existing : PlacedSticker}
    (hfind : prev.find? (fun item => item.id == next.id) = some existing)
    (hnv : ¬ validatePlacement ctx next prev none)
    (hres : resolvePlacement ctx next existing prev = none) :
    updatePlacement ctx prev next = prev := by
  unfold updatePlacement
  simp only [hfind]
  rw [if_neg hnv]
  cases hnr : ctx.nodeRects next.id with
  | none => rfl
  | some r => rw [hres]

/-- C5 counterexample: with a valid committed 140×140 placement, the
rotation slider to 45° commits the rotation before validation; the fast
validator rejects it, the pixel search fails everywhere (the rotated box is
wider than the printable area), and the final state keeps the new rotation
45 at the old position — an invalid placement stays committed, refuting
the claim that a failed rotate reverts to the last committed rotation. -/
theorem C5_failed_rotate_keeps_rotation :
    PlacementsValid ctxBig [pBig] ∧
    rotateSelected ctxBig [pBig] pBig 45 = [pBigRot] ∧
    pBig.rotationDeg = 0 ∧ pBigRot.rotationDeg = 45 ∧
    resolvePlacement ctxBig pBigRot pBigRot [pBigRot] = none ∧
    ¬ PlacementsValid ctxBig [pBigRot] := by
  have hr0 : getPlacementRectPx ctxBig pBig = some ⟨18, 18, 144, 144⟩ := by
    rw [getPlacementRectPx_rot0 ctxBig pBig stickerBig 140 140 rfl
      truthyDim_stickerBig_w truthyDim_stickerBig_h rfl (by norm_num [ctxBig])
      (by norm_num) (by norm_num)]
    norm_num [ctxBig, pBig, Rect.mk.injEq]
  refine ⟨⟨?_, ?_⟩, ?_, rfl, rfl, resolveBig_none, ?_⟩
  · intro p hp
    rw [List.mem_singleton] at hp
    subst hp
    refine ⟨_, hr0, ?_⟩
    rw [printableRectPx_ctxBig]
    simp only [insideRect, ge_iff_le]
    norm_num
  · intro p hp q hq hne
    rw [List.mem_singleton] at hp hq
    subst hp
    subst hq
    exact absurd rfl hne
  · unfold rotateSelected
    simp only [show ctxBig.nodeRects pBig.id =
        some (nodeClientRect 140 140 45 (90, 90)) from rfl,
      show ({ pBig with rotationDeg := 45 } : PlacedSticker) = pBigRot from rfl,
      show replaceById [pBig] pBigRot = [pBigRot] from rfl]
    exact updatePlacement_revert rfl validateBigFast_false resolveBig_none
  · rintro ⟨hcont, _⟩
    obtain ⟨r, hr, hin⟩ := hcont pBigRot (List.mem_singleton_self _)
    rw [rectBig45] at hr
    cases hr
    rw [printableRectPx_ctxBig] at hin
    exact bigTooWide 2 (by norm_num) ((90 : ℝ), (90 : ℝ)) hin

/-- C5 (amended): failure atomicity holds for add, duplicate and
`updatePlacement` itself — a failed add or duplicate appends nothing and a
move/rotate commit whose direct validation and search both fail returns
the previous list unchanged.  However, for the rotation slider the
previous list already contains the eagerly committed rotation, so a failed
rotate keeps the new rotation (see the counterexample). -/
theorem C5_failure_atomicity (ctx : PageCtx) :
    (∀ newId sticker placed,
      ((addStickerToSheet ctx newId sticker placed).1 = AddOutcome.invalidStickerMetadata ∨
       (addStickerToSheet ctx newId sticker placed).1 = AddOutcome.noSpaceAvailable) →
      (addStickerToSheet ctx newId sticker placed).2 = placed) ∧
    (∀ newId sel placed,
      ((duplicateSelected ctx newId sel placed).1 = AddOutcome.invalidStickerMetadata ∨
       (duplicateSelected ctx newId sel placed).1 = AddOutcome.noSpaceAvailable) →
      (duplicateSelected ctx newId sel placed).2 = placed) ∧
    (∀ prev next existing, prev.find? (fun item => item.id == next.id) = some existing →
      ¬ validatePlacement ctx next prev none →
      resolvePlacement ctx next existing prev = none →
      updatePlacement ctx prev next = prev) := by
  refine ⟨?_, ?_, ?_⟩
  · intro newId sticker placed h
    unfold addStickerToSheet at h ⊢
    cases hw : truthyDim sticker.widthMm with
    | none => cases hh : truthyDim sticker.heightMm <;> rfl
    | some w =>
      cases hh : truthyDim sticker.heightMm with
      | none => rfl
      | some h2 =>
        rw [hw, hh] at h
        cases hfind : findFirstValidPlacement ctx
            ⟨newId, sticker.id, (printableRect ctx).x, (printableRect ctx).y, 0⟩
            placed ((printableRect ctx).x, (printableRect ctx).y) with
        | none => rfl
        | some found =>
          rw [hfind] at h
          simp at h
  · intro newId sel placed h
    unfold duplicateSelected at h ⊢
    cases hfind : findFirstValidPlacement ctx
        { sel with
            id := newId
            xMm := sel.xMm +
              ((stickerLookup ctx sel.stickerId).bind SavedSticker.widthMm).getD 10 +
              ctx.gapMm }
        placed
        (sel.xMm + ((stickerLookup ctx sel.stickerId).bind SavedSticker.widthMm).getD 10 +
          ctx.gapMm, sel.yMm) with
    | none => rfl
    | some found =>
      rw [hfind] at h
      simp at h
  · intro prev next existing hfind hnv hres
    exact updatePlacement_revert hfind hnv hres

/-- C5 witness: a metadata-rejected add appends nothing, and the failed
45° rotate commit of the oversized sticker leaves the placed list
unchanged. -/
theorem C5_failure_atomicity_witness :
    (addStickerToSheet ctxBig "w-id" ⟨"s-w", none, none⟩ []).2 = ([] : List PlacedSticker) ∧
    updatePlacement ctxBig [pBigRot] pBigRot = [pBigRot] := by
  have h := C5_failure_atomicity ctxBig
  exact ⟨h.1 "w-id" ⟨"s-w", none, none⟩ [] (Or.inl rfl),
    h.2.2 [pBigRot] pBigRot pBigRot rfl validateBigFast_false resolveBig_none⟩

end

end Stickerizz
